import Mathlib

/-!
Shallow embedding of the Steem WebSocket bridge (`ProductionSteemBridge`,
src/unnamed/part_000).  The engine keeps a catalogue of three streams, a
per-stream cache with TTL, a FIFO request queue drained sequentially with a
minimum spacing, and broadcasts results to all connected clients.  Pure Lean
functions below mirror the methods of the class; the asynchronous
`fetchAndBroadcastOptimized` is split at its await point into `fetchTick`
(cache check / enqueue, lines 374-406) and `fetchComplete` (result handling,
lines 406-450).  Machine time is modelled as `Nat` milliseconds.
-/

namespace SteemBridge

/-- Upstream results are opaque payloads; the engine reads only
`head_block_number` (in `processDynamicGlobalProperties`).  `raw` stands for
the rest of the JSON body, passed through unmodified. -/
structure Payload where
  head_block_number : Nat
  raw : String
deriving DecidableEq, Repr

/-- A positional JSON-RPC parameter: `none` models the JSON `null`
placeholder in the catalogue's parameter template, `some n` a block number. -/
abbrev Param := Option Nat

/-- One entry of `this.apiMethods` (lines 52-71): upstream method name,
parameter template and refresh interval in ms. -/
structure StreamConfig where
  method : String
  params : List Param
  interval : Nat
deriving DecidableEq, Repr

/-- Runtime record stored in `this.activeStreams` (lines 337-342). -/
structure ActiveStream where
  intervalId : Nat
  config : StreamConfig
  startTime : Nat
  requestCount : Nat
deriving DecidableEq, Repr

/-- One entry of `this.cache` (lines 39-43): last value (or absent),
last-fetch timestamp, time-to-live in ms. -/
structure CacheEntry where
  data : Option Payload
  timestamp : Nat
  ttl : Nat
deriving DecidableEq, Repr

/-- An element of `this.requestQueue` (lines 453-462); the JS record also
carries resolve/reject continuations, modelled separately by
`fetchComplete`. -/
structure QueuedRequest where
  method : String
  params : List Param
deriving DecidableEq, Repr

/-- A connected WebSocket client: identity plus whether `readyState` is
OPEN (checked in `broadcast`, line 581). -/
structure Client where
  id : Nat
  isOpen : Bool
deriving DecidableEq, Repr

/-- An outbound JSON message; `type` discriminates, the remaining fields are
present or absent depending on the message shape (the JS objects built at the
various `send`/`broadcast` sites). -/
structure OutMessage where
  type : String
  message : Option String := none
  stream : Option String := none
  data : Option Payload := none
  cached : Option Bool := none
  cache_age : Option Nat := none
  api_optimized : Option Bool := none
  error : Option String := none
  interval : Option Nat := none
  optimization : Option String := none
  requests_saved : Option Nat := none
  timestamp : Option Nat := none
  block_number : Option Nat := none
deriving DecidableEq, Repr

/-- Observable side effects of a handler: sending a message to one client,
starting/cancelling an interval timer, and firing the immediate
`fetchAndBroadcastOptimized` call at activation (line 345). -/
inductive Effect where
  | send (clientId : Nat) (msg : OutMessage)
  | startTimer (stream : String) (interval : Nat) (timerId : Nat)
  | stopTimer (timerId : Nat)
  | spawnFetch (stream : String)
deriving DecidableEq, Repr

/-- Association-list lookup, modelling `Map.get` / JS object indexing. -/
def alookup {α : Type} : List (String × α) → String → Option α
  | [], _ => none
  | (k, v) :: rest, s => if k = s then some v else alookup rest s

/-- Association-list assignment, modelling `this.cache[k] = v` (updates the
key in place, creating it if absent). -/
def aset {α : Type} : List (String × α) → String → α → List (String × α)
  | [], s, v => [(s, v)]
  | (k, w) :: rest, s, v => if k = s then (k, v) :: rest else (k, w) :: aset rest s v

/-- Association-list removal, modelling `Map.delete`. -/
def aremove {α : Type} : List (String × α) → String → List (String × α)
  | [], _ => []
  | (k, w) :: rest, s => if k = s then rest else (k, w) :: aremove rest s

/-- In-place update of a present key, modelling
`if (map.has(k)) map.get(k).field++` (lines 419-421): absent keys are left
untouched. -/
def aupdate {α : Type} : List (String × α) → String → (α → α) → List (String × α)
  | [], _, _ => []
  | (k, w) :: rest, s, f => if k = s then (k, f w) :: rest else (k, w) :: aupdate rest s f

/-- The mutable state of the bridge object (constructor, lines 26-43). -/
structure BridgeState where
  clients : List Client
  currentBlock : Nat
  activeStreams : List (String × ActiveStream)
  cache : List (String × CacheEntry)
  requestQueue : List QueuedRequest
  lastRequestTime : Nat
  requestCount : Nat
  nextTimerId : Nat
deriving DecidableEq, Repr

/-- The static stream catalogue `this.apiMethods` (lines 52-71). -/
def apiMethods : String → Option StreamConfig
  | "dynamic_global_properties" =>
      some ⟨"condenser_api.get_dynamic_global_properties", [], 8000⟩
  | "block_header" => some ⟨"condenser_api.get_block_header", [none], 6000⟩
  | "block" => some ⟨"condenser_api.get_block", [none], 12000⟩
  | _ => none

/-- Initial cache `this.cache` (lines 39-43): empty entries with the
per-stream TTLs (5000, 3000, 5000 ms). -/
def initialCache : List (String × CacheEntry) :=
  [("dynamic_global_properties", ⟨none, 0, 5000⟩),
   ("block_header", ⟨none, 0, 3000⟩),
   ("block", ⟨none, 0, 5000⟩)]

/-- `broadcast` (lines 574-591): nothing is sent when no client is
connected; otherwise the message goes to every client whose connection is
OPEN. -/
def broadcastEff (st : BridgeState) (msg : OutMessage) : List Effect :=
  if st.clients.isEmpty then []
  else (st.clients.filter (fun c => c.isOpen)).map (fun c => Effect.send c.id msg)

/-- The request that a stale tick pushes first (lines 395-406): when the
chain head is still unknown, `block_header`/`block` first enqueue the
seeding `get_dynamic_global_properties` call; otherwise the stream's own
method with `params = [currentBlock]` for the block streams and the static
template for the rest. -/
def mkFetchRequest (s : String) (cfg : StreamConfig) (curBlock : Nat) : QueuedRequest :=
  if (s = "block_header" ∨ s = "block") ∧ curBlock = 0 then
    ⟨"condenser_api.get_dynamic_global_properties", []⟩
  else if s = "block_header" ∨ s = "block" then
    ⟨cfg.method, [some curBlock]⟩
  else
    ⟨cfg.method, cfg.params⟩

/-- First half of `fetchAndBroadcastOptimized` (lines 374-406), up to the
awaited `queueAPICall`: on a fresh cache entry (value present and
`now - timestamp < ttl`) the cached value is broadcast with `cached: true`
and the function returns without touching the queue; otherwise one request
is pushed onto `this.requestQueue`.  The `none` branch is unreachable for
catalogue streams, whose cache entries always exist. -/
def fetchTick (s : String) (cfg : StreamConfig) (st : BridgeState) (now : Nat) :
    BridgeState × List Effect :=
  match alookup st.cache s with
  | none => (st, [])
  | some entry =>
    if entry.data.isSome && decide (now - entry.timestamp < entry.ttl) then
      (st, broadcastEff st
        { type := "live_data", stream := some s, data := entry.data,
          cached := some true, cache_age := some (now - entry.timestamp),
          timestamp := some now })
    else
      ({ st with requestQueue := st.requestQueue ++ [mkFetchRequest s cfg st.currentBlock] }, [])

/-- A parsed upstream JSON-RPC body as seen inside `makeAPICall`
(lines 538-549): a result payload, an application-level error message, or —
for the "unexpected response format" case of line 548 — neither. -/
structure RpcResponse where
  result : Option Payload
  error : Option String
deriving DecidableEq, Repr

/-- Outcome of the awaited `queueAPICall`: the promise either resolves with
a parsed body or rejects with an error message (the rejection covers
timeouts, transport errors, unparseable bodies, and — via `settleCall` —
upstream RPC errors, which `makeAPICall` converts into rejections at
line 542). -/
inductive FetchOutcome where
  | resolved (response : RpcResponse)
  | rejected (msg : String)
deriving DecidableEq, Repr

/-- How `makeAPICall` settles a successfully parsed body (lines 538-549):
a body carrying `error` is turned into a rejection with the `API Error:`
prefix (line 542); any other body — with or without `result` — resolves
(lines 543-548).  Connection-level failures (timeout, transport error,
JSON parse failure) reject directly without passing through here
(lines 550-567). -/
def settleCall (body : RpcResponse) : FetchOutcome :=
  match body.error with
  | some m => .rejected ("API Error: " ++ m)
  | none => .resolved body

/-- Second half of `fetchAndBroadcastOptimized` (lines 406-450), resumed
when the queued call settles.  `tickNow` is the `now` captured at line 378
(before the await) — the value the cache write stamps — and `completionTime`
is the wall clock at resumption, used for the message timestamps.  On a
resolved body with a result: apply the stream's processor (all three return
the payload unchanged; the chain-state one also records
`head_block_number`), overwrite the cache entry keeping its TTL, bump the
active stream's request counter if the stream is still active, and broadcast
with `cached: false`.  On a resolved body carrying `error` instead:
broadcast `type: "error"` (lines 431-439 — present in the source but
unreachable through `queueAPICall`, since `settleCall` rejects such bodies
before they can resolve); a body with neither field is silently dropped.
On a rejection — the path every real failure takes — the catch at
lines 441-449 broadcasts `type: "fetch_error"`.  The `none` cache branch is
unreachable for catalogue streams. -/
def fetchComplete (s : String) (st : BridgeState) (outcome : FetchOutcome)
    (tickNow completionTime : Nat) : BridgeState × List Effect :=
  match outcome with
  | .rejected m =>
      (st, broadcastEff st
        { type := "fetch_error", stream := some s, error := some m,
          timestamp := some completionTime })
  | .resolved response =>
      match response.result with
      | some result =>
          match alookup st.cache s with
          | none => (st, [])
          | some old =>
            let newBlock :=
              if s = "dynamic_global_properties" then result.head_block_number
              else st.currentBlock
            let cache' := aset st.cache s ⟨some result, tickNow, old.ttl⟩
            let streams' := aupdate st.activeStreams s
              (fun a => { a with requestCount := a.requestCount + 1 })
            let st' := { st with currentBlock := newBlock, cache := cache',
                                 activeStreams := streams' }
            (st', broadcastEff st'
              { type := "live_data", stream := some s, data := some result,
                cached := some false, api_optimized := some true,
                timestamp := some completionTime })
      | none =>
          match response.error with
          | some m =>
              (st, broadcastEff st
                { type := "error", stream := some s, error := some m,
                  timestamp := some completionTime })
          | none => (st, [])

/-- The error reply for an unknown stream name (lines 321-324). -/
def unknownStreamMsg (s : String) : OutMessage :=
  { type := "error",
    message := some ("Unknown stream: " ++ s ++
      ". Available: dynamic_global_properties, block_header, block") }

/-- The `stream_started` acknowledgement (lines 348-354). -/
def streamStartedMsg (s : String) (interval : Nat) : OutMessage :=
  { type := "stream_started", stream := some s, interval := some interval,
    optimization := some "enabled",
    message := some ("Started optimized streaming " ++ s) }

/-- `startStream` (lines 319-355): unknown names get an error reply and no
state change; known names are activated if not already active (a fresh timer
is allocated, the record inserted, and an immediate fetch fired), and the
requesting client is always acknowledged with the catalogue interval. -/
def startStream (streamName : String) (clientId : Nat) (st : BridgeState) (now : Nat) :
    BridgeState × List Effect :=
  match apiMethods streamName with
  | none => (st, [Effect.send clientId (unknownStreamMsg streamName)])
  | some config =>
    if (alookup st.activeStreams streamName).isSome then
      (st, [Effect.send clientId (streamStartedMsg streamName config.interval)])
    else
      let id := st.nextTimerId
      let st' := { st with
        activeStreams := st.activeStreams ++ [(streamName, ⟨id, config, now, 0⟩)],
        nextTimerId := id + 1 }
      (st', [Effect.startTimer streamName config.interval id,
             Effect.spawnFetch streamName,
             Effect.send clientId (streamStartedMsg streamName config.interval)])

/-- `stopStream` (lines 357-372): a no-op when the stream is not active;
otherwise the timer is cleared, the record removed, and the requesting
client told how many requests were saved.  The cache is never touched. -/
def stopStream (streamName : String) (clientId : Nat) (st : BridgeState) :
    BridgeState × List Effect :=
  match alookup st.activeStreams streamName with
  | none => (st, [])
  | some stream =>
    ({ st with activeStreams := aremove st.activeStreams streamName },
     [Effect.stopTimer stream.intervalId,
      Effect.send clientId
        { type := "stream_stopped", stream := some streamName,
          requests_saved := some stream.requestCount,
          message := some ("Stopped streaming " ++ streamName) }])

/-- `stopAllStreams` (lines 499-506): clear every timer and the whole
registry. -/
def stopAllStreams (st : BridgeState) : BridgeState × List Effect :=
  ({ st with activeStreams := [] },
   st.activeStreams.map (fun p => Effect.stopTimer p.2.intervalId))

/-- The `ws.on close` handler (lines 227-236): drop the client from the set;
when no client remains, stop every stream. -/
def handleClose (clientId : Nat) (st : BridgeState) : BridgeState × List Effect :=
  let clients' := st.clients.filter (fun c => c.id != clientId)
  let st' := { st with clients := clients' }
  if clients'.isEmpty then stopAllStreams st' else (st', [])

/-- `handleClientMessage` (lines 292-317): dispatch on the message's `type`
string. -/
def handleClientMessage (clientId : Nat) (mtype : String) (mstream : String)
    (st : BridgeState) (now : Nat) : BridgeState × List Effect :=
  if mtype = "start_stream" then startStream mstream clientId st now
  else if mtype = "stop_stream" then stopStream mstream clientId st
  else if mtype = "get_current_block" then
    (st, [Effect.send clientId
      { type := "current_block", block_number := some st.currentBlock }])
  else if mtype = "get_api_stats" then
    (st, [Effect.send clientId { type := "api_stats" }])
  else
    (st, [Effect.send clientId
      { type := "error", message := some ("Unknown message type: " ++ mtype) }])

/-- `this.requestDelay` (line 33): minimum spacing between requests. -/
def requestDelay : Nat := 1000

/-- `this.maxRequestsPerMinute` (line 34): the documented per-minute
ceiling. -/
def maxRequestsPerMinute : Nat := 60

/-- Behaviour of one upstream call as seen by the drain loop: how long
`makeAPICall` takes and whether it resolves or rejects. -/
structure CallSpec where
  duration : Nat
  ok : Bool
deriving DecidableEq, Repr

/-- The drain loop of `processRequestQueue` (lines 264-286) as a dispatch
trace.  State per iteration: the current wall clock and `lastRequestTime`.
The loop sleeps until `lastRequestTime + requestDelay` when the gap is too
small, dispatches `makeAPICall`, and only on success sets
`lastRequestTime` to the completion time (line 278; the catch branch at
line 281 leaves it unchanged); a 200 ms sleep follows every iteration
(line 285).  Returns the list of dispatch times. -/
def drainDispatchTimes : Nat → Nat → List CallSpec → List Nat
  | _, _, [] => []
  | now, lastReq, c :: rest =>
    let dispatch := if now - lastReq < requestDelay then lastReq + requestDelay else now
    let finish := dispatch + c.duration
    let lastReq' := if c.ok then finish else lastReq
    dispatch :: drainDispatchTimes (finish + 200) lastReq' rest

/-! Helper lemmas about the association-list operations. -/

theorem alookup_aset {α : Type} (l : List (String × α)) (s : String) (v : α) :
    alookup (aset l s v) s = some v := by
  induction l with
  | nil => simp [aset, alookup]
  | cons p rest ih =>
    by_cases h : p.1 = s
    · simp [aset, alookup, h]
    · simp [aset, alookup, h, ih]

/-- A fresh cache entry makes the tick serve the cached value to the
broadcast path, leaving the whole state (in particular the request queue)
untouched. -/
theorem fetchTick_hit (s : String) (cfg : StreamConfig) (st : BridgeState) (now : Nat)
    (entry : CacheEntry) (v : Payload)
    (hlook : alookup st.cache s = some entry)
    (hdata : entry.data = some v)
    (hfresh : now - entry.timestamp < entry.ttl) :
    fetchTick s cfg st now =
      (st, broadcastEff st
        { type := "live_data", stream := some s, data := some v,
          cached := some true, cache_age := some (now - entry.timestamp),
          timestamp := some now }) := by
  simp [fetchTick, hlook, hdata, hfresh]

/-- A stale (or absent-value) cache entry makes the tick append exactly one
request to the queue, whatever the queue already contains. -/
theorem fetchTick_stale (s : String) (cfg : StreamConfig) (st : BridgeState) (now : Nat)
    (entry : CacheEntry)
    (hlook : alookup st.cache s = some entry)
    (hstale : ¬(entry.data.isSome = true ∧ now - entry.timestamp < entry.ttl)) :
    fetchTick s cfg st now =
      ({ st with requestQueue := st.requestQueue ++ [mkFetchRequest s cfg st.currentBlock] },
       []) := by
  have hb : ¬((entry.data.isSome && decide (now - entry.timestamp < entry.ttl)) = true) := by
    simpa [Bool.and_eq_true, decide_eq_true_iff] using hstale
  simp [fetchTick, hlook, hb]

/-! Concrete states used by counterexamples and witnesses. -/

/-- The catalogue entry for the `block` stream. -/
def blockConfig : StreamConfig := ⟨"condenser_api.get_block", [none], 12000⟩

/-- One connected client; the `block` stream is active (timer id 7) with a
stale cache entry and one fetch for it already sitting unresolved in the
request queue. -/
def c1State : BridgeState :=
  { clients := [⟨1, true⟩], currentBlock := 5,
    activeStreams := [("block", ⟨7, blockConfig, 0, 1⟩)],
    cache := [("block", ⟨none, 0, 5000⟩)],
    requestQueue := [⟨"condenser_api.get_block", [some 5]⟩],
    lastRequestTime := 0, requestCount := 1, nextTimerId := 8 }

/-- C1, as stated, is false: with the previous `block` fetch still
unresolved in the queue, the next tick is not a no-op — it enqueues a second
fetch with the same upstream method for the same stream, so two fetches for
one stream are in flight. -/
theorem C1_counterexample :
    (fetchTick "block" blockConfig c1State 12000).1.requestQueue =
      [⟨"condenser_api.get_block", [some 5]⟩, ⟨"condenser_api.get_block", [some 5]⟩] ∧
    (fetchTick "block" blockConfig c1State 12000).1 ≠ c1State := by
  decide

/-- C1 (amended): the tick keeps no in-flight flag; its behaviour depends
only on the cache entry.  Whenever the entry is stale, the tick appends one
more fetch request to the shared queue — regardless of any unresolved
request for the same stream already queued — so overlapping fetches per
stream are possible and are serialized only by the FIFO queue itself. -/
theorem C1_no_inflight_guard (s : String) (cfg : StreamConfig) (st : BridgeState)
    (now : Nat) (entry : CacheEntry)
    (hlook : alookup st.cache s = some entry)
    (hstale : ¬(entry.data.isSome = true ∧ now - entry.timestamp < entry.ttl)) :
    (fetchTick s cfg st now).1.requestQueue =
      st.requestQueue ++ [mkFetchRequest s cfg st.currentBlock] := by
  rw [fetchTick_stale s cfg st now entry hlook hstale]

/-- Witness for the amended C1 at the concrete overlapping-fetch state. -/
theorem C1_no_inflight_guard_witness :
    (fetchTick "block" blockConfig c1State 12000).1.requestQueue =
      c1State.requestQueue ++ [mkFetchRequest "block" blockConfig c1State.currentBlock] :=
  C1_no_inflight_guard "block" blockConfig c1State 12000 ⟨none, 0, 5000⟩ rfl (by decide)

/-- C2 fails on the code: `processRequestQueue` never consults
`maxRequestsPerMinute` before dispatching, and `lastRequestTime` is updated
only when a call succeeds, so a run of immediately-failing calls is
dispatched every 200 ms.  Starting at t = 100000 with `lastRequestTime = 0`,
61 queued requests whose upstream calls all reject instantly are all
dispatched inside the single rolling 60-second window [100000, 160000) —
exceeding the configured ceiling of 60. -/
theorem C2_rate_ceiling_violated :
    ((drainDispatchTimes 100000 0 (List.replicate 61 ⟨0, false⟩)).filter
        (fun x => decide (100000 ≤ x ∧ x < 160000))).length = 61 ∧
    61 > maxRequestsPerMinute := by
  decide

/-- C3: a scheduler tick that finds a present, TTL-fresh cache entry changes
no state at all — in particular it enqueues no upstream request — and hands
exactly the cached value to the broadcast path with `cached: true`. -/
theorem C3_cache_hit_serves_cached (s : String) (cfg : StreamConfig) (st : BridgeState)
    (now : Nat) (entry : CacheEntry) (v : Payload)
    (hlook : alookup st.cache s = some entry)
    (hdata : entry.data = some v)
    (hfresh : now - entry.timestamp < entry.ttl) :
    fetchTick s cfg st now =
      (st, broadcastEff st
        { type := "live_data", stream := some s, data := some v,
          cached := some true, cache_age := some (now - entry.timestamp),
          timestamp := some now }) :=
  fetchTick_hit s cfg st now entry v hlook hdata hfresh

/-- A state whose `block` cache entry is fresh at t = 12000. -/
def c3State : BridgeState :=
  { clients := [⟨1, true⟩], currentBlock := 5,
    activeStreams := [("block", ⟨7, blockConfig, 0, 1⟩)],
    cache := [("block", ⟨some ⟨5, "blockbody"⟩, 10000, 5000⟩)],
    requestQueue := [],
    lastRequestTime := 0, requestCount := 1, nextTimerId := 8 }

/-- Witness for C3 at the concrete fresh-cache state. -/
theorem C3_cache_hit_serves_cached_witness :
    fetchTick "block" blockConfig c3State 12000 =
      (c3State, broadcastEff c3State
        { type := "live_data", stream := some "block", data := some ⟨5, "blockbody"⟩,
          cached := some true, cache_age := some (12000 - 10000),
          timestamp := some 12000 }) :=
  C3_cache_hit_serves_cached "block" blockConfig c3State 12000
    ⟨some ⟨5, "blockbody"⟩, 10000, 5000⟩ ⟨5, "blockbody"⟩ rfl rfl (by decide)

/-- Two connected clients, the `block` stream active with timer id 7. -/
def c4State : BridgeState :=
  { clients := [⟨1, true⟩, ⟨2, true⟩], currentBlock := 5,
    activeStreams := [("block", ⟨7, blockConfig, 0, 3⟩)],
    cache := [("block", ⟨some ⟨5, "blockbody"⟩, 10000, 5000⟩)],
    requestQueue := [],
    lastRequestTime := 0, requestCount := 1, nextTimerId := 8 }

/-- C4, as stated, is false: with two clients connected (so the stream's
subscribers are far from zero — every broadcast reaches both), a single
`stop_stream` message from one client cancels the stream's timer and removes
its record for everyone. -/
theorem C4_counterexample :
    c4State.clients.length = 2 ∧
    (handleClientMessage 1 "stop_stream" "block" c4State 20000).1.activeStreams = [] ∧
    Effect.stopTimer 7 ∈ (handleClientMessage 1 "stop_stream" "block" c4State 20000).2 := by
  decide

/-- C4 (amended): the registry keeps no per-stream subscriber count.  A
stream's timer is cancelled either when any client sends `stop_stream` for
it (regardless of how many clients remain connected), or when the last
client disconnects; a disconnect that leaves at least one client connected
removes no stream — every active stream stays registered and its timer
keeps running, so the remaining clients keep receiving updates. -/
theorem C4_deactivation_semantics (st : BridgeState) (clientId : Nat) (s : String)
    (info : ActiveStream)
    (hstill : (st.clients.filter (fun c => c.id != clientId)).isEmpty = false)
    (hact : alookup st.activeStreams s = some info) :
    ((handleClose clientId st).1.activeStreams = st.activeStreams ∧
      (handleClose clientId st).2 = []) ∧
    ((stopStream s clientId st).1.activeStreams = aremove st.activeStreams s ∧
      Effect.stopTimer info.intervalId ∈ (stopStream s clientId st).2) := by
  constructor
  · simp [handleClose, hstill]
  · simp [stopStream, hact]

/-- Witness for the amended C4: client 1 disconnecting leaves client 2 and
every stream running, while a `stop_stream` from client 1 would cancel the
timer outright. -/
theorem C4_deactivation_semantics_witness :
    ((handleClose 1 c4State).1.activeStreams = c4State.activeStreams ∧
      (handleClose 1 c4State).2 = []) ∧
    ((stopStream "block" 1 c4State).1.activeStreams = aremove c4State.activeStreams "block" ∧
      Effect.stopTimer 7 ∈ (stopStream "block" 1 c4State).2) :=
  C4_deactivation_semantics c4State 1 "block" ⟨7, blockConfig, 0, 3⟩ (by decide) rfl

/-- One connected client, the `block` stream active with a stale cache. -/
def c5State : BridgeState :=
  { clients := [⟨1, true⟩], currentBlock := 5,
    activeStreams := [("block", ⟨7, blockConfig, 0, 1⟩)],
    cache := [("block", ⟨none, 0, 5000⟩)],
    requestQueue := [],
    lastRequestTime := 0, requestCount := 0, nextTimerId := 8 }

/-- C5, as stated, is false: even a genuine upstream application-level RPC
error — a body carrying `error` — is converted by `makeAPICall` into a
rejection and therefore reported under message type `fetch_error`, not
`error`. -/
theorem C5_counterexample :
    (fetchComplete "block" c5State
        (settleCall ⟨none, some "Invalid parameters"⟩) 0 100).2 =
      [Effect.send 1
        { type := "fetch_error", stream := some "block",
          error := some "API Error: Invalid parameters",
          timestamp := some 100 }] ∧
    "fetch_error" ≠ "error" := by
  decide

/-- C5 (amended): every fetch failure — an upstream RPC error (whose body
`makeAPICall` turns into a rejection with the `API Error:` prefix) just like
a connection-level failure (timeout, transport error) — is caught and
reported to the connected clients as a message of type `fetch_error` with
fields `stream`, `error` and `timestamp`; in both cases the bridge state
(active streams, timers, cache, queue) is left entirely unchanged, so the
stream stays active and retries on its next tick, and the handler is total,
so no failure escapes it.  The source's `type: "error"` branch is
unreachable through `queueAPICall`. -/
theorem C5_failure_reporting (s m : String) (st : BridgeState)
    (tickNow completionTime : Nat) :
    fetchComplete s st (settleCall ⟨none, some m⟩) tickNow completionTime =
      (st, broadcastEff st
        { type := "fetch_error", stream := some s,
          error := some ("API Error: " ++ m),
          timestamp := some completionTime }) ∧
    fetchComplete s st (.rejected m) tickNow completionTime =
      (st, broadcastEff st
        { type := "fetch_error", stream := some s, error := some m,
          timestamp := some completionTime }) :=
  ⟨rfl, rfl⟩

/-- A fresh connection with nothing active and the initial cache. -/
def c6State : BridgeState :=
  { clients := [⟨1, true⟩], currentBlock := 0,
    activeStreams := [], cache := initialCache,
    requestQueue := [],
    lastRequestTime := 0, requestCount := 0, nextTimerId := 1 }

/-- C6: a `start_stream` message for a name outside the catalogue gets an
error reply and leaves the state untouched (no activation, no timer, no
fetch); for a catalogued name the requesting client always receives the
`stream_started` acknowledgement carrying the stream's catalogue
interval. -/
theorem C6_start_stream_validation (name : String) (clientId : Nat) (st : BridgeState)
    (now : Nat) :
    (apiMethods name = none →
      handleClientMessage clientId "start_stream" name st now =
        (st, [Effect.send clientId (unknownStreamMsg name)])) ∧
    (∀ cfg, apiMethods name = some cfg →
      Effect.send clientId (streamStartedMsg name cfg.interval) ∈
        (handleClientMessage clientId "start_stream" name st now).2) := by
  have hd : handleClientMessage clientId "start_stream" name st now =
      startStream name clientId st now := rfl
  constructor
  · intro h
    rw [hd]
    simp [startStream, h]
  · intro cfg h
    rw [hd]
    by_cases hact : (alookup st.activeStreams name).isSome
    · simp [startStream, h, hact]
    · simp [startStream, h, hact]

/-- Witness for C6: the unknown name `foo` is rejected without side effects,
while `block` is acknowledged with its 12000 ms interval. -/
theorem C6_start_stream_validation_witness :
    (handleClientMessage 1 "start_stream" "foo" c6State 0 =
      (c6State, [Effect.send 1 (unknownStreamMsg "foo")])) ∧
    Effect.send 1 (streamStartedMsg "block" blockConfig.interval) ∈
      (handleClientMessage 1 "start_stream" "block" c6State 0).2 :=
  ⟨(C6_start_stream_validation "foo" 1 c6State 0).1 rfl,
   (C6_start_stream_validation "block" 1 c6State 0).2 blockConfig rfl⟩

/-- One client, `block` active, its cache entry still empty. -/
def c7State : BridgeState :=
  { clients := [⟨1, true⟩], currentBlock := 5,
    activeStreams := [("block", ⟨7, blockConfig, 0, 0⟩)],
    cache := [("block", ⟨none, 0, 5000⟩)],
    requestQueue := [],
    lastRequestTime := 0, requestCount := 0, nextTimerId := 8 }

/-- C7, as stated, is false: a tick captures `now = 0`, the fetch resolves
at time 4000, and the cache write performed at that moment stamps the entry
with timestamp 0 — the tick-capture time — so immediately after the write
the entry's age is 4000, not zero. -/
theorem C7_counterexample :
    alookup ((fetchComplete "block" c7State (.resolved ⟨some ⟨6, "body"⟩, none⟩) 0 4000).1.cache) "block" =
      some ⟨some ⟨6, "body"⟩, 0, 5000⟩ ∧
    (4000 : Nat) - 0 ≠ 0 := by
  decide

/-- C7 (amended): every cache write stamps the entry with the `now` captured
at the start of the scheduler tick — before the fetch was enqueued — and
preserves the entry's TTL, so immediately after the write the entry's age
equals the time elapsed between the tick and the fetch's completion, which
is zero only when the fetch resolved instantly. -/
theorem C7_write_stamps_tick_time (s : String) (st : BridgeState) (r : Payload)
    (tickNow completionTime : Nat) (old : CacheEntry)
    (hlook : alookup st.cache s = some old) :
    alookup ((fetchComplete s st (.resolved ⟨some r, none⟩) tickNow completionTime).1.cache) s =
      some ⟨some r, tickNow, old.ttl⟩ := by
  simp [fetchComplete, hlook, alookup_aset]

/-- Witness for the amended C7: a tick at 1000 whose fetch resolves at 4000
writes timestamp 1000, keeping the 5000 ms TTL. -/
theorem C7_write_stamps_tick_time_witness :
    alookup ((fetchComplete "block" c7State (.resolved ⟨some ⟨6, "body"⟩, none⟩) 1000 4000).1.cache) "block" =
      some ⟨some ⟨6, "body"⟩, 1000, 5000⟩ :=
  C7_write_stamps_tick_time "block" c7State ⟨6, "body"⟩ 1000 4000 ⟨none, 0, 5000⟩ rfl

/-- C8: the cache round-trips values unchanged — after a completed fetch
writes payload `r` at tick time `tickNow`, any tick at `tickNow + δ` with
`δ < TTL` serves exactly `r` (same `Payload`, decidable equality) back to
the broadcast path with `cached: true` and no state change — and the cache
survives deactivation: `stopStream` never touches it, so a later re-join
within the TTL observes the same entry. -/
theorem C8_cache_round_trip (s : String) (cfg : StreamConfig) (st : BridgeState)
    (r : Payload) (tickNow completionTime d : Nat) (old : CacheEntry)
    (s2 : String) (cl : Nat)
    (hlook : alookup st.cache s = some old)
    (hd : d < old.ttl) :
    fetchTick s cfg (fetchComplete s st (.resolved ⟨some r, none⟩) tickNow completionTime).1 (tickNow + d) =
      ((fetchComplete s st (.resolved ⟨some r, none⟩) tickNow completionTime).1,
       broadcastEff (fetchComplete s st (.resolved ⟨some r, none⟩) tickNow completionTime).1
        { type := "live_data", stream := some s, data := some r,
          cached := some true, cache_age := some d,
          timestamp := some (tickNow + d) }) ∧
    (stopStream s2 cl (fetchComplete s st (.resolved ⟨some r, none⟩) tickNow completionTime).1).1.cache =
      (fetchComplete s st (.resolved ⟨some r, none⟩) tickNow completionTime).1.cache := by
  have h1 : alookup ((fetchComplete s st (.resolved ⟨some r, none⟩) tickNow completionTime).1).cache s =
      some ⟨some r, tickNow, old.ttl⟩ := by
    simp [fetchComplete, hlook, alookup_aset]
  constructor
  · have h2 := fetchTick_hit s cfg (fetchComplete s st (.resolved ⟨some r, none⟩) tickNow completionTime).1
      (tickNow + d) ⟨some r, tickNow, old.ttl⟩ r h1 rfl
      (by simpa [Nat.add_sub_cancel_left] using hd)
    simpa [Nat.add_sub_cancel_left] using h2
  · cases h : alookup ((fetchComplete s st (.resolved ⟨some r, none⟩) tickNow
        completionTime).1).activeStreams s2 <;> simp [stopStream, h]

/-- Witness for C8 at a concrete write followed by a fresh read 2000 ms
later and a deactivation. -/
theorem C8_cache_round_trip_witness :
    fetchTick "block" blockConfig
        (fetchComplete "block" c7State (FetchOutcome.resolved ⟨some ⟨6, "body"⟩, none⟩) 1000 4000).1
        (1000 + 2000) =
      ((fetchComplete "block" c7State (FetchOutcome.resolved ⟨some ⟨6, "body"⟩, none⟩) 1000 4000).1,
       broadcastEff (fetchComplete "block" c7State (FetchOutcome.resolved ⟨some ⟨6, "body"⟩, none⟩) 1000 4000).1
        { type := "live_data", stream := some "block", data := some ⟨6, "body"⟩,
          cached := some true, cache_age := some 2000,
          timestamp := some (1000 + 2000) }) ∧
    (stopStream "block" 1
        (fetchComplete "block" c7State (FetchOutcome.resolved ⟨some ⟨6, "body"⟩, none⟩) 1000 4000).1).1.cache =
      (fetchComplete "block" c7State (FetchOutcome.resolved ⟨some ⟨6, "body"⟩, none⟩) 1000 4000).1.cache :=
  C8_cache_round_trip "block" blockConfig c7State ⟨6, "body"⟩ 1000 4000 2000
    ⟨none, 0, 5000⟩ "block" 1 rfl (by decide)

/-- No clients remain; the `block` stream is still registered (the stop is
about to happen while its fetch is in flight). -/
def c9State : BridgeState :=
  { clients := [], currentBlock := 5,
    activeStreams := [("block", ⟨7, blockConfig, 0, 2⟩)],
    cache := [("block", ⟨some ⟨5, "oldbody"⟩, 0, 5000⟩)],
    requestQueue := [],
    lastRequestTime := 0, requestCount := 0, nextTimerId := 8 }

/-- C9: stopping a stream does not abort its in-flight fetch — when the
fetch completes its result is written to the cache exactly as it would have
been with the stream still active (the resulting caches are equal, and the
entry holds the fetched payload stamped with the tick time), and with the
subscriber set empty the completion broadcasts nothing. -/
theorem C9_completion_after_stop (s : String) (st : BridgeState) (r : Payload)
    (tickNow completionTime : Nat) (cl : Nat) (old : CacheEntry) (info : ActiveStream)
    (hlook : alookup st.cache s = some old)
    (hact : alookup st.activeStreams s = some info)
    (hempty : st.clients = []) :
    (fetchComplete s (stopStream s cl st).1 (.resolved ⟨some r, none⟩) tickNow completionTime).1.cache =
      (fetchComplete s st (.resolved ⟨some r, none⟩) tickNow completionTime).1.cache ∧
    alookup ((fetchComplete s (stopStream s cl st).1 (.resolved ⟨some r, none⟩) tickNow
        completionTime).1.cache) s = some ⟨some r, tickNow, old.ttl⟩ ∧
    (fetchComplete s (stopStream s cl st).1 (.resolved ⟨some r, none⟩) tickNow completionTime).2 = [] := by
  have hstop : (stopStream s cl st).1 =
      { st with activeStreams := aremove st.activeStreams s } := by
    simp [stopStream, hact]
  refine ⟨?_, ?_, ?_⟩ <;>
    simp [hstop, fetchComplete, hlook, alookup_aset, broadcastEff, hempty]

/-- Witness for C9: the last subscriber has left, the stream is stopped, yet
the completing fetch still writes the new payload; nothing is sent. -/
theorem C9_completion_after_stop_witness :
    (fetchComplete "block" (stopStream "block" 1 c9State).1
        (.resolved ⟨some ⟨6, "newbody"⟩, none⟩) 10000 12000).1.cache =
      (fetchComplete "block" c9State (.resolved ⟨some ⟨6, "newbody"⟩, none⟩) 10000 12000).1.cache ∧
    alookup ((fetchComplete "block" (stopStream "block" 1 c9State).1
        (.resolved ⟨some ⟨6, "newbody"⟩, none⟩) 10000 12000).1.cache) "block" =
      some ⟨some ⟨6, "newbody"⟩, 10000, 5000⟩ ∧
    (fetchComplete "block" (stopStream "block" 1 c9State).1
        (.resolved ⟨some ⟨6, "newbody"⟩, none⟩) 10000 12000).2 = [] :=
  C9_completion_after_stop "block" c9State ⟨6, "newbody"⟩ 10000 12000 1
    ⟨some ⟨5, "oldbody"⟩, 0, 5000⟩ ⟨7, blockConfig, 0, 2⟩ rfl rfl rfl

/-- C10: a `start_stream` for a stream that is already active changes
nothing — the state (registry record, timer allocation counter, queue,
cache) is returned as-is, no timer is started, no immediate fetch is fired —
and the requesting client still receives the `stream_started`
acknowledgement with the same catalogue interval. -/
theorem C10_start_stream_idempotent (name : String) (cfg : StreamConfig) (clientId : Nat)
    (st : BridgeState) (now : Nat) (info : ActiveStream)
    (hcat : apiMethods name = some cfg)
    (hact : alookup st.activeStreams name = some info) :
    startStream name clientId st now =
      (st, [Effect.send clientId (streamStartedMsg name cfg.interval)]) := by
  have h : (alookup st.activeStreams name).isSome = true := by
    simp [hact]
  simp [startStream, hcat, h]

/-- Witness for C10: re-requesting the already-active `block` stream leaves
the state untouched and re-acknowledges with the 12000 ms interval. -/
theorem C10_start_stream_idempotent_witness :
    startStream "block" 1 c4State 99999 =
      (c4State, [Effect.send 1 (streamStartedMsg "block" blockConfig.interval)]) :=
  C10_start_stream_idempotent "block" blockConfig 1 c4State 99999
    ⟨7, blockConfig, 0, 3⟩ rfl rfl

end SteemBridge
